import Mathlib

/-!
Shallow embedding of the DoneBot repository (src/notify_with_db.py,
src/db_manager.py, src/utils.py, with src/notify.py sharing the clearchat
logic).  Pure Python functions become Lean functions over `List Char` /
`String`; the SQLite-backed notification store becomes a `List` of records
with explicit state passing; remote Telegram calls become an oracle record
whose fields say whether each call succeeds, and code paths where an
exception escapes the handler are modelled with `Except` / an explicit
`propagated` field.  Character classes of Python's `re` module are modelled
with their ASCII meaning, which is what the patterns in the source use.
-/

/-- Whitespace as recognised by Python's `str.strip` and the regex class
`\s` on the ASCII range: space, tab, newline, carriage return, vertical
tab, form feed. -/
def pyIsSpace (c : Char) : Bool :=
  c = ' ' || c = '\t' || c = '\n' || c = '\r' || c = '\x0b' || c = '\x0c'

/-- Python `str.strip()`: drop leading and trailing whitespace. -/
def pyStrip (s : String) : String :=
  ⟨((s.data.dropWhile pyIsSpace).reverse.dropWhile pyIsSpace).reverse⟩

/-- Core of Python `str.splitlines()`: every line terminator (`\n`, `\r`,
`\r\n`, vertical tab, form feed) ends a line; a trailing fragment without a
terminator is a final line; the empty string yields no lines. -/
def splitlinesCore (acc : List Char) : List Char → List (List Char)
  | [] => if acc.isEmpty then [] else [acc.reverse]
  | '\r' :: '\n' :: rest => acc.reverse :: splitlinesCore [] rest
  | c :: rest =>
    if c = '\n' || c = '\r' || c = '\x0b' || c = '\x0c' then
      acc.reverse :: splitlinesCore [] rest
    else
      splitlinesCore (c :: acc) rest

/-- Python `str.splitlines()`. -/
def pySplitlines (s : String) : List String :=
  (splitlinesCore [] s.data).map (fun l => ⟨l⟩)

/-- Does the first list occur as a prefix of the second? -/
def startsWithL : List Char → List Char → Bool
  | [], _ => true
  | _ :: _, [] => false
  | a :: ps, b :: ss => a = b && startsWithL ps ss

/-- Does the first list occur as a suffix of the second? -/
def endsWithL (suf l : List Char) : Bool :=
  startsWithL suf.reverse l.reverse

/-- Python's `sub in s` substring test (contiguous occurrence). -/
def containsSubL (pat : List Char) : List Char → Bool
  | [] => pat.isEmpty
  | c :: cs => startsWithL pat (c :: cs) || containsSubL pat cs

/-- Python string slicing `s[:n]` (by characters). -/
def strTake (s : String) (n : Nat) : String :=
  ⟨s.data.take n⟩

/-- Python `str.replace(pat, rep)` at the single call site of the source,
where the pattern is `str(cdown_seconds) = "5"`, a single character: every
occurrence of that character is replaced by the replacement string
(non-overlapping left-to-right replacement coincides with per-character
replacement for a one-character pattern). -/
def replaceChar (pat : Char) (rep : List Char) : List Char → List Char
  | [] => []
  | c :: cs => (if c = pat then rep else [c]) ++ replaceChar pat rep cs

/-- String-level wrapper for `replaceChar`. -/
def pyReplace1 (s : String) (pat : Char) (rep : String) : String :=
  ⟨replaceChar pat rep.data s.data⟩

/-- The three admissible endings of an exception type name in the regex of
`NotifyBot.extract_main_error`. -/
def errorSuffixes : List (List Char) :=
  [("Error").data, ("Exception").data, ("Interrupt").data]

/-- Models the optional regex prefix of `extract_main_error`'s pattern: a
bracketed rank marker like a rank tag followed by a colon and optional
whitespace.  If the prefix is present and complete it is consumed together
with the following whitespace; otherwise the line is left unchanged (in
which case the overall match fails anyway, since the line then starts with
a character that is not an uppercase letter). -/
def rankPrefixStripped (cs : List Char) : List Char :=
  if startsWithL ("[rank").data cs then
    let rest := cs.drop 5
    let ds := rest.takeWhile Char.isDigit
    let rest2 := rest.dropWhile Char.isDigit
    if ds.isEmpty then cs
    else
      match rest2 with
      | ']' :: ':' :: r => r.dropWhile pyIsSpace
      | _ => cs
  else cs

/-- Models `re.match` of the exception pattern of `extract_main_error`
against an already-stripped line: an optional rank prefix, an exception
type (an ASCII alphanumeric run starting with an uppercase letter and
ending in one of the suffixes of `errorSuffixes`), a colon, optional
whitespace, and a nonempty message.  On success it returns the
`f-string` value combining type and message with a colon and space,
exactly as the source builds `full_error`. -/
def exception_pattern_match (line : String) : Option String :=
  let cs := rankPrefixStripped line.data
  let run := cs.takeWhile Char.isAlphanum
  let rest := cs.dropWhile Char.isAlphanum
  match run with
  | [] => none
  | c0 :: tail =>
    if c0.isUpper && errorSuffixes.any (fun suf => endsWithL suf tail) then
      match rest with
      | ':' :: after =>
        let msg := after.dropWhile pyIsSpace
        if msg.isEmpty then none
        else some (String.mk run ++ (": ") ++ String.mk msg)
      | _ => none
    else none

/-- The two chained-exception markers searched for by
`extract_main_error`. -/
def chained_markers : List String :=
  ["During handling of the above exception",
   "The above exception was the direct cause"]

/-- Does any line of the (stripped) stderr text contain a chained-exception
marker? Mirrors the `has_chained_exception` computation of the source. -/
def has_chained_exception (stderr : String) : Bool :=
  (pySplitlines (pyStrip stderr)).any (fun line =>
    chained_markers.any (fun m => containsSubL m.data line.data))

/-- The `exception_lines` list of the source: for each line (with its index
`i` from `enumerate`), the stripped line is matched against the exception
pattern and successful matches are collected as `(i, full_error)` pairs in
line order. -/
def exceptionPairs (stderr : String) : List (Nat × String) :=
  ((pySplitlines (pyStrip stderr)).enum).filterMap
    (fun p => (exception_pattern_match (pyStrip p.2)).map (fun e => (p.1, e)))

/-- The error string selected by `extract_main_error` before truncation:
the fixed unknown-error sentinel when nothing matched, the first match when
a chained-exception marker is present, the last match otherwise. -/
def selected_error (stderr : String) : String :=
  match (exceptionPairs stderr).map Prod.snd with
  | [] => "Unknown error"
  | e :: es => if has_chained_exception stderr then e else es.getLastD e

/-- The final truncation step of `extract_main_error`: when the error
exceeds `max_length` characters, keep the first `max_length` characters and
append a three-character ellipsis. -/
def pyTruncate (max_length : Nat) (error : String) : String :=
  if max_length < error.length then strTake error max_length ++ ("...") else error

/-- Embedding of `NotifyBot.extract_main_error` (src/notify_with_db.py).
The source's default `max_length` is 200 and its only call site uses that
default. -/
def extract_main_error (stderr : String) (max_length : Nat) : String :=
  if (pyStrip stderr).data.isEmpty then "Unknown error (no stderr output)"
  else pyTruncate max_length (selected_error stderr)

/-- A row of the `notifications` table of `DatabaseManager`
(src/db_manager.py).  The table stores `message_id` as `INTEGER NOT NULL`;
the `Option` also covers the JSON history of src/notify.py, whose entries
may lack the key, so that `entry.get` returns a missing value. -/
structure NotificationRecord where
  chat_id : String
  message_id : Option Int
  timestamp : String
  command : String
  device_name : String
  os_name : String
  status : String
deriving DecidableEq, Repr

/-- Python truthiness of the `msg_id` read in the sweep loop of
`NotifyBot.clearchat`: a missing value and the integer 0 are falsy, every
other integer is truthy. -/
def truthy_id : Option Int → Bool
  | none => false
  | some m => !(m == 0)

/-- The message id the sweep loop passes to `bot.delete_message` for a
record, when it passes one at all: records with a falsy `message_id` raise
before the remote call is reached. -/
def remote_call_id (e : NotificationRecord) : Option Int :=
  match e.message_id with
  | some m => if m == 0 then none else some m
  | none => none

/-- Embedding of `DatabaseManager.get_notifications_for_chat` without a
limit: all rows whose `chat_id` matches, in store order (the source orders
by timestamp descending; no claim depends on the order). -/
def get_notifications_for_chat (chat_id : String) (db : List NotificationRecord) :
    List NotificationRecord :=
  db.filter (fun r => r.chat_id == chat_id)

/-- Embedding of `DatabaseManager.delete_notifications_for_chat`: removes
every row of the chat and returns `cursor.rowcount`, the number of rows
removed, together with the store left behind. -/
def delete_notifications_for_chat (chat_id : String) (db : List NotificationRecord) :
    Nat × List NotificationRecord :=
  ((db.filter (fun r => r.chat_id == chat_id)).length,
   db.filter (fun r => !(r.chat_id == chat_id)))

/-- Embedding of `DatabaseManager.add_notification`: inserts one row. -/
def add_notification (chat_id : String) (message_id : Int)
    (timestamp command device_name os_name status : String)
    (db : List NotificationRecord) : List NotificationRecord :=
  db ++ [{ chat_id := chat_id, message_id := some message_id,
           timestamp := timestamp, command := command,
           device_name := device_name, os_name := os_name, status := status }]

/-- Tokens of the fragment of SQL needed for the statement
`DatabaseManager.get_statistics` executes. -/
inductive SqlTok where
  | ident : String → SqlTok
  | lparen : SqlTok
  | rparen : SqlTok
  | comma : SqlTok
  | star : SqlTok
  | other : Char → SqlTok
deriving DecidableEq, Repr

/-- Characters SQL identifiers and keywords are made of. -/
def isSqlIdentChar (c : Char) : Bool :=
  c.isAlphanum || c = '_'

/-- Emit the identifier accumulated so far (characters held in reverse). -/
def sqlFlush (cur : List Char) : List SqlTok :=
  if cur.isEmpty then [] else [SqlTok.ident (String.mk cur.reverse)]

/-- Tokenizer core: identifier characters accumulate, punctuation becomes
its token, whitespace separates, anything else becomes an `other` token
that no parse rule accepts (the statement under study contains none). -/
def sqlTokAux (cur : List Char) : List Char → List SqlTok
  | [] => sqlFlush cur
  | c :: cs =>
    if isSqlIdentChar c then sqlTokAux (c :: cur) cs
    else
      sqlFlush cur ++
        (if c = '(' then [SqlTok.lparen]
         else if c = ')' then [SqlTok.rparen]
         else if c = ',' then [SqlTok.comma]
         else if c = '*' then [SqlTok.star]
         else if c.isWhitespace then []
         else [SqlTok.other c]) ++ sqlTokAux [] cs

/-- Tokenize an SQL statement. -/
def sqlTokenize (q : String) : List SqlTok :=
  sqlTokAux [] q.data

/-- Uppercase a string character by character (ASCII). -/
def strUpper (s : String) : String :=
  ⟨s.data.map Char.toUpper⟩

/-- Is the token the given keyword (SQL keywords are case-insensitive)? -/
def isKw (t : SqlTok) (kw : String) : Bool :=
  match t with
  | SqlTok.ident s => strUpper s == kw
  | _ => false

/-- Argument list of a COUNT aggregate: a star, a column, or DISTINCT and a
column, closed by the right parenthesis. -/
def parseAggArgs : List SqlTok → Option (List SqlTok)
  | SqlTok.star :: SqlTok.rparen :: r => some r
  | SqlTok.ident d :: SqlTok.ident _col :: SqlTok.rparen :: r =>
    if strUpper d == ("DISTINCT") then some r else none
  | SqlTok.ident _col :: SqlTok.rparen :: r => some r
  | _ => none

/-- One result column of the select list: a COUNT aggregate with an
optional explicit `AS alias` (every column of the statement under study
carries an explicit alias; SQLite's implicit alias would not make the
malformed statement parse either, since a column cannot carry two aliases
and the token after the missing comma is an aggregate call, not a bare
name). -/
def parseResultColumn : List SqlTok → Option (List SqlTok)
  | SqlTok.ident f :: SqlTok.lparen :: rest =>
    if strUpper f == ("COUNT") then
      match parseAggArgs rest with
      | none => none
      | some r =>
        match r with
        | SqlTok.ident a :: SqlTok.ident _alias :: r2 =>
          if strUpper a == ("AS") then some r2 else some r
        | _ => some r
    else none
  | _ => none

/-- A select list: result columns separated by commas.  The fuel is the
token count, enough since every column consumes at least one token. -/
def parseSelectList (fuel : Nat) (ts : List SqlTok) : Option (List SqlTok) :=
  match fuel with
  | 0 => none
  | fuel + 1 =>
    match parseResultColumn ts with
    | none => none
    | some r =>
      match r with
      | SqlTok.comma :: r2 => parseSelectList fuel r2
      | _ => some r

/-- Does the statement parse as `SELECT select-list FROM table`?  This is
the shape `get_statistics` intends; in any SQL grammar the items of a
select list are separated by commas, so a statement this parser rejects at
the missing comma is rejected by SQLite as well. -/
def parseSelectStmt (q : String) : Bool :=
  match sqlTokenize q with
  | t :: rest =>
    isKw t ("SELECT") &&
      (match parseSelectList (rest.length + 1) rest with
       | some (f :: SqlTok.ident _tbl :: r2) => isKw f ("FROM") && r2.isEmpty
       | _ => false)
  | [] => false

/-- The statement `DatabaseManager.get_statistics` executes, verbatim from
src/db_manager.py: the select list lacks a comma between the third and
fourth columns. -/
def statistics_query : String :=
  "
                SELECT
                    COUNT(*) as total_notifications,
                    COUNT(DISTINCT chat_id) as unique_chats,
                    COUNT(DISTINCT device_name) as unique_devices
                    COUNT(DISTINCT os_name) as unique_os
                FROM notifications
            "

/-- The aggregate report `get_statistics` is meant to return. -/
structure Statistics where
  total_notifications : Nat
  unique_chats : Nat
  unique_devices : Nat
  unique_os : Nat
deriving DecidableEq, Repr

/-- The error the sqlite3 driver raises on the malformed statement. -/
def statistics_error_msg : String :=
  "sqlite3.OperationalError: near \"COUNT\": syntax error"

/-- Embedding of `DatabaseManager.get_statistics`: `cursor.execute` parses
the statement first and raises on a syntax error (modelled as `Except`);
only a statement that parses would produce the aggregate row, whose
counts are the total row count and the numbers of distinct chats, devices
and operating systems. -/
def get_statistics (db : List NotificationRecord) : Except String Statistics :=
  if parseSelectStmt statistics_query then
    Except.ok
      { total_notifications := db.length
        unique_chats := (db.map (fun r => r.chat_id)).dedup.length
        unique_devices := (db.map (fun r => r.device_name)).dedup.length
        unique_os := (db.map (fun r => r.os_name)).dedup.length }
  else Except.error statistics_error_msg

/-- Embedding of `utils.format_duration` (src/utils.py), keeping the four
numeric fields of the formatted string `days`, `hours`, `minutes`,
`seconds` in that order.  Python's `divmod` on floats pairs floor division
with the matching remainder, modelled on the rationals; `int` of an
already integral value is that value.  The source's second `divmod` binds
`hours` and the third then divides `int(minutes)` — the minutes remainder,
not the hours — by 24. -/
def format_duration_parts (seconds : ℚ) : ℤ × ℤ × ℤ × ℚ :=
  let minutes0 : ℤ := ⌊seconds / 60⌋
  let secs : ℚ := seconds - 60 * (minutes0 : ℚ)
  let _hours0 : ℤ := Int.fdiv minutes0 60
  let minutes1 : ℤ := Int.fmod minutes0 60
  let days : ℤ := Int.fdiv minutes1 24
  let hours1 : ℤ := Int.fmod minutes1 24
  (days, hours1, minutes1, secs)

/-- Embedding of `NotifyBot.send_notification` (src/notify_with_db.py):
the transport call `bot.send_message` happens first; if it raises, the
exception propagates and the store is left untouched; only when it
returns a message identifier is `add_notification` called with it. -/
def send_notification (send_result : Except String Int)
    (chat_id timestamp command device_name os_name status : String)
    (db : List NotificationRecord) :
    Except String Unit × List NotificationRecord :=
  match send_result with
  | Except.error e => (Except.error e, db)
  | Except.ok message_id =>
    (Except.ok (),
     add_notification chat_id message_id timestamp command device_name os_name status db)

/-- Oracle for the remote Telegram calls `NotifyBot.clearchat` makes: for
each call, whether it succeeds, and for the two sends, the identifier of
the sent message or the exception raised. -/
structure Transport where
  delete_ok : Int → Bool
  send_countdown : Except String Int
  edit_ok : Nat → Bool
  delete_countdown_ok : Bool
  send_disclaimer : Except String Int
  delete_disclaimer : Except String Unit

/-- The `cdown_seconds` constant of `NotifyBot.clearchat`. -/
def cdown_seconds : Nat := 5

/-- The countdown message text, as the f-string of the source builds it
from the confirmed deleted count and `cdown_seconds`. -/
def countdown_text (deleted : Nat) : String :=
  "🧹 Cleared " ++ Nat.repr deleted ++ " message(s). 🧹\nThis message will self-destruct in "
    ++ Nat.repr cdown_seconds ++ " seconds..."

/-- The tick values of the countdown loop: Python's
`range(cdown_seconds - 1, 0, -1)`, the numbers counting down from
`cdown_seconds - 1` to 1. -/
def countdown_range : List Nat :=
  (List.range (cdown_seconds - 1)).reverse.map (fun k => k + 1)

/-- The countdown loop body over the remaining tick values: each tick
sleeps one second, then attempts one `edit_message_text` whose text is the
original countdown text with every occurrence of `str(cdown_seconds)`
replaced by the tick's number; a failed edit is logged and breaks the loop
(the failed attempt itself is recorded, and is never retried).  The
returned list holds every attempted edit as (displayed number, text). -/
def countdown_go (edit_ok : Nat → Bool) (base : String) : List Nat → List (Nat × String)
  | [] => []
  | i :: is =>
    (i, pyReplace1 base ('5') (Nat.repr i)) ::
      (if edit_ok i then countdown_go edit_ok base is else [])

/-- The countdown loop of `NotifyBot.clearchat`. -/
def countdown_loop (edit_ok : Nat → Bool) (base : String) : List (Nat × String) :=
  countdown_go edit_ok base countdown_range

/-- The sweep loop of `NotifyBot.clearchat` over the chat's history: per
record, a falsy `message_id` raises before any remote call; otherwise
`bot.delete_message` is attempted, and only a successful call increments
`deleted`.  Every exception is caught inside the loop body, so every
record is processed.  Returns (deleted count, the processed records'
message ids in order, the ids actually passed to `delete_message`). -/
def sweep (delete_ok : Int → Bool) : List NotificationRecord → Nat × List (Option Int) × List Int
  | [] => (0, [], [])
  | e :: es =>
    let rest := sweep delete_ok es
    match e.message_id with
    | some m =>
      if m == 0 then (rest.1, e.message_id :: rest.2.1, rest.2.2)
      else if delete_ok m then (rest.1 + 1, e.message_id :: rest.2.1, m :: rest.2.2)
      else (rest.1, e.message_id :: rest.2.1, m :: rest.2.2)
    | none => (rest.1, e.message_id :: rest.2.1, rest.2.2)

/-- Observable outcome of one `clearchat` handler run. -/
structure ClearchatRun where
  sweep_processed : List (Option Int)
  remote_delete_calls : List Int
  deleted : Nat
  store_after : List NotificationRecord
  countdown_edits : List (Nat × String)
  disclaimer_sent : Bool
  propagated : Option String
deriving DecidableEq, Repr

/-- Embedding of `NotifyBot.clearchat` (src/notify_with_db.py): sweep the
chat's history, purge the chat from the store unconditionally, send the
countdown message (NOT guarded: a raise propagates), run the countdown
loop, attempt to delete the countdown message (guarded: a failure is only
logged, which is why `Transport.delete_countdown_ok` cannot influence the
outcome), send the disclaimer (NOT guarded), and delete the disclaimer
(NOT guarded).  `propagated` holds the exception the handler re-raises,
if any. -/
def clearchat (t : Transport) (db : List NotificationRecord) (chat_id : String) : ClearchatRun :=
  let notifications := get_notifications_for_chat chat_id db
  let s := sweep t.delete_ok notifications
  let store1 := (delete_notifications_for_chat chat_id db).2
  match t.send_countdown with
  | Except.error e =>
    { sweep_processed := s.2.1, remote_delete_calls := s.2.2, deleted := s.1,
      store_after := store1, countdown_edits := [], disclaimer_sent := false,
      propagated := some e }
  | Except.ok _countdown_msg_id =>
    let edits := countdown_loop t.edit_ok (countdown_text s.1)
    match t.send_disclaimer with
    | Except.error e =>
      { sweep_processed := s.2.1, remote_delete_calls := s.2.2, deleted := s.1,
        store_after := store1, countdown_edits := edits, disclaimer_sent := false,
        propagated := some e }
    | Except.ok _limit_warning_id =>
      { sweep_processed := s.2.1, remote_delete_calls := s.2.2, deleted := s.1,
        store_after := store1, countdown_edits := edits, disclaimer_sent := true,
        propagated :=
          match t.delete_disclaimer with
          | Except.ok _ => none
          | Except.error e => some e }

/-- A three-record store over two chats, used as concrete input by the
witnesses. -/
def exampleDb : List NotificationRecord :=
  [ { chat_id := "12", message_id := some 101, timestamp := "2024-01-01T10:00:00",
      command := "python a.py", device_name := "alpha", os_name := "Linux", status := "success" }
  , { chat_id := "12", message_id := some 102, timestamp := "2024-01-01T11:00:00",
      command := "python b.py", device_name := "alpha", os_name := "Linux", status := "failed" }
  , { chat_id := "99", message_id := some 7, timestamp := "2024-01-02T09:00:00",
      command := "make", device_name := "beta", os_name := "Darwin", status := "started" } ]

/-- The transport failure used by the C7 witness. -/
def transport_err : String := "telegram.error.NetworkError: Bad Gateway"

/-- Prefix of the tick list up to and including the first failing edit:
the shape the early-abort countdown loop leaves behind. -/
def firstFailTake (edit_ok : Nat → Bool) : List Nat → List Nat
  | [] => []
  | i :: is => if edit_ok i then i :: firstFailTake edit_ok is else [i]

/-- An edit oracle under which every countdown edit succeeds. -/
def all_edits_ok : Nat → Bool := fun _ => true

/-- The edit oracle of the C8 witness: the edit at tick 2 fails. -/
def edit_fails_at_two : Nat → Bool := fun i => !(i == 2)

/-- The disclaimer-deletion failure of the C2 counterexample. -/
def disclaimer_delete_err : String :=
  "telegram.error.BadRequest: message to delete not found"

/-- A transport where every call succeeds except deleting the disclaimer
message. -/
def transport_disclaimer_fails : Transport :=
  { delete_ok := fun _ => true
  , send_countdown := Except.ok 500
  , edit_ok := fun _ => true
  , delete_countdown_ok := true
  , send_disclaimer := Except.ok 501
  , delete_disclaimer := Except.error disclaimer_delete_err }

/-- A transport where every guarded call fails and every unguarded call
succeeds. -/
def transport_guarded_failures : Transport :=
  { delete_ok := fun _ => false
  , send_countdown := Except.ok 500
  , edit_ok := fun _ => false
  , delete_countdown_ok := false
  , send_disclaimer := Except.ok 501
  , delete_disclaimer := Except.ok () }

/-- The over-long stderr of the C6 witness: one matching line whose
message is far longer than 200 characters. -/
def long_stderr_example : String :=
  "ValueError: 0123456789012345678901234567890123456789012345678901234567890123456789012345678901234567890123456789012345678901234567890123456789012345678901234567890123456789012345678901234567890123456789012345678901234567890123456789012345678901234567890123456789"

/-- The chained-exception stderr of the C5 witness: the root cause comes
first, a chained wrapper after the marker line. -/
def chained_stderr_example : String :=
  "ValueError: root cause\nDuring handling of the above exception, another exception occurred:\nRuntimeError: wrapper"

/-! ## Shared lemmas about the store and the sweep -/

theorem filter_eq_after_filter_ne (chat : String) (db : List NotificationRecord) :
    (db.filter (fun r => !(r.chat_id == chat))).filter (fun r => r.chat_id == chat) = [] := by
  induction db with
  | nil => rfl
  | cons e es ih =>
    cases hc : (e.chat_id == chat)
    · simp [List.filter_cons, hc, ih]
    · simp [List.filter_cons, hc, ih]

theorem filter_other_after_filter_ne (chat other : String) (h : other ≠ chat)
    (db : List NotificationRecord) :
    (db.filter (fun r => !(r.chat_id == chat))).filter (fun r => r.chat_id == other)
      = db.filter (fun r => r.chat_id == other) := by
  induction db with
  | nil => rfl
  | cons e es ih =>
    cases hc : (e.chat_id == chat)
    · simp [List.filter_cons, hc, ih]
    · have hcc : e.chat_id = chat := by simpa using hc
      have ho : (e.chat_id == other) = false := by
        rw [hcc]
        exact beq_eq_false_iff_ne.mpr (fun hh => h hh.symm)
      simp [List.filter_cons, hc, ho, ih]

theorem sweep_processed_eq (delete_ok : Int → Bool) (l : List NotificationRecord) :
    (sweep delete_ok l).2.1 = l.map (fun e => e.message_id) := by
  induction l with
  | nil => rfl
  | cons e es ih =>
    cases hm : e.message_id with
    | none => simp [sweep, hm, ih]
    | some m =>
      by_cases h0 : m = 0
      · simp [sweep, hm, h0, ih]
      · by_cases hd : delete_ok m <;> simp [sweep, hm, h0, hd, ih]

theorem sweep_calls_eq (delete_ok : Int → Bool) (l : List NotificationRecord) :
    (sweep delete_ok l).2.2 = l.filterMap remote_call_id := by
  induction l with
  | nil => rfl
  | cons e es ih =>
    cases hm : e.message_id with
    | none => simp [sweep, remote_call_id, hm, ih]
    | some m =>
      by_cases h0 : m = 0
      · simp [sweep, remote_call_id, hm, h0, ih]
      · by_cases hd : delete_ok m <;> simp [sweep, remote_call_id, hm, h0, hd, ih]

theorem sweep_deleted_eq (delete_ok : Int → Bool) (l : List NotificationRecord) :
    (sweep delete_ok l).1 = ((l.filterMap remote_call_id).filter delete_ok).length := by
  induction l with
  | nil => rfl
  | cons e es ih =>
    cases hm : e.message_id with
    | none => simp [sweep, remote_call_id, hm, ih]
    | some m =>
      by_cases h0 : m = 0
      · simp [sweep, remote_call_id, hm, h0, ih]
      · by_cases hd : delete_ok m <;> simp [sweep, remote_call_id, hm, h0, hd, ih]

/-! ## The claims -/

/-- C9: for every chat, deleting the chat's records twice in succession
returns the number of that chat's records first and exactly zero second;
listing the chat yields the empty sequence after either call; records of
any other chat are unaffected by both calls. -/
theorem delete_for_chat_idempotent (db : List NotificationRecord) (chat other : String)
    (h : other ≠ chat) :
    (delete_notifications_for_chat chat db).1 = (get_notifications_for_chat chat db).length
    ∧ (delete_notifications_for_chat chat ((delete_notifications_for_chat chat db).2)).1 = 0
    ∧ get_notifications_for_chat chat ((delete_notifications_for_chat chat db).2) = []
    ∧ get_notifications_for_chat chat
        ((delete_notifications_for_chat chat ((delete_notifications_for_chat chat db).2)).2) = []
    ∧ get_notifications_for_chat other ((delete_notifications_for_chat chat db).2)
        = get_notifications_for_chat other db
    ∧ get_notifications_for_chat other
        ((delete_notifications_for_chat chat ((delete_notifications_for_chat chat db).2)).2)
        = get_notifications_for_chat other db := by
  refine ⟨rfl, ?_, ?_, ?_, ?_, ?_⟩
  · show ((db.filter _).filter _).length = 0
    rw [show ((db.filter (fun r => !(r.chat_id == chat))).filter (fun r => r.chat_id == chat)) = []
          from filter_eq_after_filter_ne chat db]
    rfl
  · exact filter_eq_after_filter_ne chat db
  · exact filter_eq_after_filter_ne chat (db.filter (fun r => !(r.chat_id == chat)))
  · exact filter_other_after_filter_ne chat other h db
  · calc ((db.filter (fun r => !(r.chat_id == chat))).filter
            (fun r => !(r.chat_id == chat))).filter (fun r => r.chat_id == other)
        = (db.filter (fun r => !(r.chat_id == chat))).filter (fun r => r.chat_id == other) :=
          filter_other_after_filter_ne chat other h _
      _ = db.filter (fun r => r.chat_id == other) := filter_other_after_filter_ne chat other h db

/-- Witness for C9 at a concrete store: chat "12" holds two records, chat
"99" one; the first purge reports 2, the second 0, and chat "99" keeps its
record. -/
theorem delete_for_chat_idempotent_witness :
    (delete_notifications_for_chat ("12") exampleDb).1 = 2
    ∧ (delete_notifications_for_chat ("12") ((delete_notifications_for_chat ("12") exampleDb).2)).1 = 0
    ∧ get_notifications_for_chat ("12") ((delete_notifications_for_chat ("12") exampleDb).2) = []
    ∧ get_notifications_for_chat ("99") ((delete_notifications_for_chat ("12") exampleDb).2)
        = get_notifications_for_chat ("99") exampleDb := by
  have h := delete_for_chat_idempotent exampleDb ("12") ("99") (by decide)
  exact ⟨by decide, h.2.1, h.2.2.1, h.2.2.2.2.1⟩

/-- C3: the statistics operation never returns an aggregate report: the
statement it executes is malformed (the select list lacks a comma), so the
driver raises a syntax error for every store state.  The claim's intended
counts live in the unreachable success branch of `get_statistics`. -/
theorem get_statistics_raises (db : List NotificationRecord) :
    get_statistics db = Except.error statistics_error_msg := by
  have h : parseSelectStmt statistics_query = false := by decide
  simp [get_statistics, h]

/-- C4: at 90000 elapsed seconds the formatter yields 0 days, 00 hours,
00 minutes, 00.00 seconds, while the documented format requires 1 day and
01 hours: the third `divmod` divides the minutes remainder, not the total
hours, by 24. -/
theorem format_duration_day_hour_bug :
    format_duration_parts 90000 = (0, 0, 0, (0 : ℚ))
    ∧ ⌊(90000 : ℚ) / 86400⌋ = 1
    ∧ ⌊(90000 : ℚ) / 3600⌋ % 24 = 1 := by
  have h0 : ⌊(90000 : ℚ) / 60⌋ = 1500 := by norm_num
  refine ⟨?_, by norm_num, by norm_num⟩
  simp only [format_duration_parts, h0]
  norm_num [Int.fdiv, Int.fmod]

/-- C7: when the transport call inside the dispatcher raises, the
exception propagates unchanged and the store is returned untouched — no
record is written for the failed attempt. -/
theorem send_notification_send_then_persist
    (e chat_id timestamp command device_name os_name status : String)
    (db : List NotificationRecord)
    (send_result : Except String Int) (h : send_result = Except.error e) :
    send_notification send_result chat_id timestamp command device_name os_name status db
      = (Except.error e, db) := by
  subst h; rfl

/-- Witness for C7: a concrete failing send against the example store
propagates the error and leaves the store unchanged. -/
theorem send_notification_send_then_persist_witness :
    send_notification (Except.error transport_err) ("12") ("ts") ("cmd") ("dev") ("os")
        ("started") exampleDb
      = (Except.error transport_err, exampleDb) :=
  send_notification_send_then_persist transport_err ("12") ("ts") ("cmd") ("dev") ("os")
    ("started") exampleDb (Except.error transport_err) rfl

/-- Counterexample for C8: even when every edit succeeds, the countdown
loop attempts exactly 4 edits, one per tick of `range(cdown_seconds - 1,
0, -1)`, not 5. -/
theorem countdown_five_ticks_counterexample :
    (countdown_loop all_edits_ok (countdown_text 3)).length = 4
    ∧ (countdown_loop all_edits_ok (countdown_text 3)).length ≠ 5
    ∧ (countdown_loop all_edits_ok (countdown_text 3)).map Prod.fst = [4, 3, 2, 1] := by
  refine ⟨by decide, by decide, by decide⟩

/-- C8 amended: the countdown loop has 4 ticks (`cdown_seconds - 1` with
`cdown_seconds = 5`), displaying 4, 3, 2, 1; each tick attempts exactly
one edit whose text replaces the countdown digit by the tick's number, and
the attempted ticks are exactly the prefix of the tick list up to and
including the first failing edit — a failed edit aborts the loop without
retries. -/
theorem countdown_four_ticks_early_abort (edit_ok : Nat → Bool) (base : String) :
    (countdown_loop edit_ok base).map Prod.fst = firstFailTake edit_ok countdown_range
    ∧ (countdown_loop edit_ok base).map Prod.snd
        = (firstFailTake edit_ok countdown_range).map
            (fun i => pyReplace1 base ('5') (Nat.repr i))
    ∧ countdown_range = [4, 3, 2, 1] := by
  have hr : countdown_range = [4, 3, 2, 1] := by decide
  refine ⟨?_, ?_, hr⟩ <;>
  · rw [countdown_loop, hr]
    cases h4 : edit_ok 4 <;> cases h3 : edit_ok 3 <;> cases h2 : edit_ok 2 <;>
      cases h1 : edit_ok 1 <;>
      simp [countdown_go, firstFailTake, h4, h3, h2, h1]

/-- Witness for C8's amended statement: with the edit failing at tick 2,
the attempted ticks are 4, 3 and the failing 2, and no further edit is
attempted. -/
theorem countdown_four_ticks_early_abort_witness :
    (countdown_loop edit_fails_at_two (countdown_text 7)).map Prod.fst = [4, 3, 2] := by
  have h := (countdown_four_ticks_early_abort edit_fails_at_two (countdown_text 7)).1
  rw [h]; decide

/-- Counterexample for C2: when deleting the disclaimer message raises,
the handler does not proceed past it — the exception propagates to the
caller, so the disclaimer deletion is not best-effort. -/
theorem clearchat_teardown_counterexample :
    (clearchat transport_disclaimer_fails exampleDb ("12")).propagated
        = some disclaimer_delete_err
    ∧ (clearchat transport_disclaimer_fails exampleDb ("12")).propagated ≠ none := by
  refine ⟨by rfl, by decide⟩

/-- C2 amended: of the three teardown remote calls, only the deletion of
the countdown message is guarded by try/except; whenever the two sends
return and the disclaimer deletion succeeds, the handler finishes without
propagating — regardless of sweep-deletion failures, edit failures, and a
failure to delete the countdown message (the `delete_countdown_ok` and
`edit_ok` and `delete_ok` oracle fields are universally quantified here).
Sending the disclaimer and deleting the disclaimer are unguarded, so a
raise there propagates (the counterexample exhibits the deletion case). -/
theorem clearchat_only_countdown_delete_guarded (t : Transport)
    (db : List NotificationRecord) (chat_id : String) (cm dm : Int)
    (h1 : t.send_countdown = Except.ok cm) (h2 : t.send_disclaimer = Except.ok dm)
    (h3 : t.delete_disclaimer = Except.ok ()) :
    (clearchat t db chat_id).propagated = none
    ∧ (clearchat t db chat_id).disclaimer_sent = true := by
  rw [clearchat, h1, h2, h3]
  exact ⟨rfl, rfl⟩

/-- Witness for C2's amended statement: with all guarded calls failing
and the unguarded ones succeeding, nothing propagates and the disclaimer
is sent. -/
theorem clearchat_only_countdown_delete_guarded_witness :
    (clearchat transport_guarded_failures exampleDb ("12")).propagated = none
    ∧ (clearchat transport_guarded_failures exampleDb ("12")).disclaimer_sent = true :=
  clearchat_only_countdown_delete_guarded transport_guarded_failures exampleDb ("12")
    500 501 rfl rfl rfl

/-- C1: for every transport oracle, store and chat, the retraction sweep
processes every one of the chat's N history records (its processed trace
is the full record list), calls the remote deletion exactly for the
records with a truthy message id, reports as deleted exactly the number of
remote deletion calls that succeeded, and afterwards the chat's history in
the store is unconditionally empty — whichever subset of the remote calls
failed. -/
theorem clearchat_sweep_total (t : Transport) (db : List NotificationRecord)
    (chat_id : String) :
    (clearchat t db chat_id).sweep_processed
        = (get_notifications_for_chat chat_id db).map (fun e => e.message_id)
    ∧ (clearchat t db chat_id).remote_delete_calls
        = (get_notifications_for_chat chat_id db).filterMap remote_call_id
    ∧ (clearchat t db chat_id).deleted
        = (((get_notifications_for_chat chat_id db).filterMap remote_call_id).filter
            t.delete_ok).length
    ∧ get_notifications_for_chat chat_id (clearchat t db chat_id).store_after = [] := by
  have hstore : (clearchat t db chat_id).store_after
      = (delete_notifications_for_chat chat_id db).2 := by
    rw [clearchat]
    cases t.send_countdown <;> cases t.send_disclaimer <;> rfl
  have hproc : (clearchat t db chat_id).sweep_processed
      = (sweep t.delete_ok (get_notifications_for_chat chat_id db)).2.1 := by
    rw [clearchat]
    cases t.send_countdown <;> cases t.send_disclaimer <;> rfl
  have hcalls : (clearchat t db chat_id).remote_delete_calls
      = (sweep t.delete_ok (get_notifications_for_chat chat_id db)).2.2 := by
    rw [clearchat]
    cases t.send_countdown <;> cases t.send_disclaimer <;> rfl
  have hdel : (clearchat t db chat_id).deleted
      = (sweep t.delete_ok (get_notifications_for_chat chat_id db)).1 := by
    rw [clearchat]
    cases t.send_countdown <;> cases t.send_disclaimer <;> rfl
  refine ⟨?_, ?_, ?_, ?_⟩
  · rw [hproc, sweep_processed_eq]
  · rw [hcalls, sweep_calls_eq]
  · rw [hdel, sweep_deleted_eq]
  · rw [hstore]
    exact filter_eq_after_filter_ne chat_id db

/-! ## Lemmas about single-character replacement (the countdown edit) -/

theorem string_eq_of_data {s t : String} (h : s.data = t.data) : s = t := by
  cases s; cases t; cases h; rfl

theorem string_data_append (s t : String) : (s ++ t).data = s.data ++ t.data := rfl

theorem replaceChar_append (pat : Char) (rep : List Char) (xs ys : List Char) :
    replaceChar pat rep (xs ++ ys) = replaceChar pat rep xs ++ replaceChar pat rep ys := by
  induction xs with
  | nil => rfl
  | cons c cs ih => simp [replaceChar, ih]

theorem replaceChar_not_mem (pat : Char) (rep : List Char) (l : List Char)
    (h : pat ∉ l) : replaceChar pat rep l = l := by
  induction l with
  | nil => rfl
  | cons c cs ih =>
    have hc : ¬ c = pat := fun e => h (by rw [← e]; exact List.mem_cons_self c cs)
    simp [replaceChar, hc, ih (fun hm => h (List.mem_cons_of_mem c hm))]

theorem replaceChar_single (pat d : Char) (l : List Char) :
    replaceChar pat [d] l = l.map (fun c => if c = pat then d else c) := by
  induction l with
  | nil => rfl
  | cons c cs ih => by_cases hc : c = pat <;> simp [replaceChar, hc, ih]

theorem not_mem_map_subst (pat d : Char) (hd : d ≠ pat) (l : List Char) :
    pat ∉ l.map (fun c => if c = pat then d else c) := by
  induction l with
  | nil => simp
  | cons c cs ih =>
    by_cases hc : c = pat
    · simp [hc, ih, Ne.symm hd]
    · simp [hc, ih, Ne.symm hc]

theorem replaceChar_changes (pat d : Char) (hd : d ≠ pat) (l : List Char)
    (h : pat ∈ l) : replaceChar pat [d] l ≠ l := by
  rw [replaceChar_single]
  intro he
  exact not_mem_map_subst pat d hd l (he.symm ▸ h)

theorem pyReplace1_append (s t : String) (pat : Char) (rep : String) :
    pyReplace1 (s ++ t) pat rep = pyReplace1 s pat rep ++ pyReplace1 t pat rep :=
  string_eq_of_data (by simp [pyReplace1, string_data_append, replaceChar_append])

theorem pyReplace1_not_mem (s : String) (pat : Char) (rep : String) (h : pat ∉ s.data) :
    pyReplace1 s pat rep = s :=
  string_eq_of_data (replaceChar_not_mem pat rep.data s.data h)

theorem pyReplace1_digit (rep : String) : pyReplace1 ("5") ('5') rep = rep := by
  apply string_eq_of_data
  have h : ("5").data = ['5'] := rfl
  simp [pyReplace1, h, replaceChar]

theorem pyReplace1_changes (s : String) (pat d : Char) (rep : String)
    (hrep : rep.data = [d]) (hd : d ≠ pat) (h : pat ∈ s.data) :
    pyReplace1 s pat rep ≠ s := by
  intro he
  have hdata : replaceChar pat rep.data s.data = s.data := congrArg String.data he
  rw [hrep] at hdata
  exact replaceChar_changes pat d hd s.data h hdata

/-- C10: each countdown edit rewrites the whole countdown text by
replacing every occurrence of the character of `str(cdown_seconds)`; the
replacement decomposes over the text's segments, leaves the displayed
deleted count intact exactly when its decimal representation holds no
digit 5, and rewrites the displayed count whenever it does (the tick
numbers 1..4 written in place of the digit are themselves free of it). -/
theorem countdown_edit_rewrites_count (deleted i : Nat) (h1 : 1 ≤ i) (h2 : i ≤ 4) :
    pyReplace1 (countdown_text deleted) ('5') (Nat.repr i)
      = ("🧹 Cleared ") ++ pyReplace1 (Nat.repr deleted) ('5') (Nat.repr i)
          ++ (" message(s). 🧹\nThis message will self-destruct in ") ++ Nat.repr i
          ++ (" seconds...")
    ∧ (('5') ∉ (Nat.repr deleted).data →
        pyReplace1 (Nat.repr deleted) ('5') (Nat.repr i) = Nat.repr deleted)
    ∧ (('5') ∈ (Nat.repr deleted).data →
        pyReplace1 (Nat.repr deleted) ('5') (Nat.repr i) ≠ Nat.repr deleted) := by
  refine ⟨?_, ?_, ?_⟩
  · rw [countdown_text, show Nat.repr cdown_seconds = ("5") from rfl]
    rw [pyReplace1_append, pyReplace1_append, pyReplace1_append, pyReplace1_append]
    rw [pyReplace1_not_mem ("🧹 Cleared ") ('5') (Nat.repr i) (by decide)]
    rw [pyReplace1_not_mem (" message(s). 🧹\nThis message will self-destruct in ")
          ('5') (Nat.repr i) (by decide)]
    rw [pyReplace1_not_mem (" seconds...") ('5') (Nat.repr i) (by decide)]
    rw [pyReplace1_digit]
  · exact fun h => pyReplace1_not_mem (Nat.repr deleted) ('5') (Nat.repr i) h
  · intro h
    interval_cases i
    · exact pyReplace1_changes (Nat.repr deleted) ('5') ('1') (Nat.repr 1) rfl (by decide) h
    · exact pyReplace1_changes (Nat.repr deleted) ('5') ('2') (Nat.repr 2) rfl (by decide) h
    · exact pyReplace1_changes (Nat.repr deleted) ('5') ('3') (Nat.repr 3) rfl (by decide) h
    · exact pyReplace1_changes (Nat.repr deleted) ('5') ('4') (Nat.repr 4) rfl (by decide) h

/-- Witness for C10 at deleted = 15 and tick 3: the deleted count 15
contains the digit 5, so the edit rewrites the displayed count (to 13). -/
theorem countdown_edit_rewrites_count_witness :
    pyReplace1 (countdown_text 15) ('5') (Nat.repr 3)
      = ("🧹 Cleared ") ++ pyReplace1 (Nat.repr 15) ('5') (Nat.repr 3)
          ++ (" message(s). 🧹\nThis message will self-destruct in ") ++ Nat.repr 3
          ++ (" seconds...")
    ∧ pyReplace1 (Nat.repr 15) ('5') (Nat.repr 3) ≠ Nat.repr 15
    ∧ pyReplace1 (Nat.repr 15) ('5') (Nat.repr 3) = ("13") := by
  have h := countdown_edit_rewrites_count 15 3 (by decide) (by decide)
  exact ⟨h.1, h.2.2 (by decide), by decide⟩

/-! ## Lemmas about the error summary -/

theorem string_empty_iff (s : String) : s = ("") ↔ s.data.isEmpty = true := by
  constructor
  · intro h; rw [h]; rfl
  · intro h
    apply string_eq_of_data
    cases hdata : s.data with
    | nil => rfl
    | cons c cs => rw [hdata] at h; simp at h

theorem pySplitlines_of_empty (s : String) (h : s.data.isEmpty = true) :
    pySplitlines s = [] := by
  have hd : s.data = [] := by
    cases hdata : s.data with
    | nil => rfl
    | cons c cs => rw [hdata] at h; simp at h
  simp [pySplitlines, hd, splitlinesCore]

theorem exceptionPairs_of_empty (stderr : String)
    (h : (pyStrip stderr).data.isEmpty = true) : exceptionPairs stderr = [] := by
  simp [exceptionPairs, pySplitlines_of_empty _ h]

theorem selected_error_of_empty (stderr : String)
    (h : (pyStrip stderr).data.isEmpty = true) : selected_error stderr = "Unknown error" := by
  simp [selected_error, exceptionPairs_of_empty stderr h]

theorem string_length_append (s t : String) : (s ++ t).length = s.length + t.length := by
  cases s with
  | mk a =>
    cases t with
    | mk b =>
      show (a ++ b).length = a.length + b.length
      exact List.length_append a b

theorem strTake_length_of_le (s : String) (n : Nat) (h : n ≤ s.length) :
    (strTake s n).length = n := by
  have hs : s.length = s.data.length := rfl
  show (s.data.take n).length = n
  rw [List.length_take]
  omega

/-- C6: the error summary is total with bounded output at the default
maximum length 200: empty or whitespace-only stderr yields the fixed
no-output sentinel, a match-free stderr yields the fixed unknown-error
sentinel, an over-long selected error is cut to exactly its first 200
characters plus the three-character ellipsis, and the result never
exceeds 203 characters. -/
theorem extract_main_error_total_bounded (stderr : String) :
    (extract_main_error stderr 200).length ≤ 203
    ∧ (pyStrip stderr = ("") →
        extract_main_error stderr 200 = "Unknown error (no stderr output)")
    ∧ (¬ pyStrip stderr = ("") → exceptionPairs stderr = [] →
        extract_main_error stderr 200 = "Unknown error")
    ∧ (200 < (selected_error stderr).length →
        extract_main_error stderr 200 = strTake (selected_error stderr) 200 ++ ("..."))
    ∧ (200 < (selected_error stderr).length →
        (extract_main_error stderr 200).length = 203) := by
  by_cases hs : (pyStrip stderr).data.isEmpty
  · have hempty : extract_main_error stderr 200 = "Unknown error (no stderr output)" := by
      simp [extract_main_error, hs]
    have hsel : selected_error stderr = "Unknown error" := selected_error_of_empty stderr hs
    refine ⟨?_, fun _ => hempty, fun hne _ => absurd ((string_empty_iff _).mpr hs) hne, ?_, ?_⟩
    · rw [hempty]; decide
    · intro h200; rw [hsel] at h200; exact absurd h200 (by decide)
    · intro h200; rw [hsel] at h200; exact absurd h200 (by decide)
  · have hext : extract_main_error stderr 200 = pyTruncate 200 (selected_error stderr) := by
      simp [extract_main_error, hs]
    refine ⟨?_, ?_, ?_, ?_, ?_⟩
    · rw [hext, pyTruncate]
      by_cases h200 : 200 < (selected_error stderr).length
      · rw [if_pos h200, string_length_append,
            strTake_length_of_le _ 200 (Nat.le_of_lt h200)]
        have h3 : ("..." : String).length = 3 := rfl
        omega
      · rw [if_neg h200]; omega
    · intro h; exact absurd ((string_empty_iff _).mp h) hs
    · intro _ hpairs
      have hsel : selected_error stderr = "Unknown error" := by
        simp [selected_error, hpairs]
      rw [hext, hsel]; decide
    · intro h200
      rw [hext, pyTruncate, if_pos h200]
    · intro h200
      rw [hext, pyTruncate, if_pos h200, string_length_append,
          strTake_length_of_le _ 200 (Nat.le_of_lt h200)]
      rfl

set_option maxRecDepth 8000 in
/-- Witness for C6: the empty stderr yields the sentinel, and the
over-long matched error is truncated to exactly 203 characters. -/
theorem extract_main_error_total_bounded_witness :
    extract_main_error ("") 200 = "Unknown error (no stderr output)"
    ∧ extract_main_error long_stderr_example 200
        = strTake (selected_error long_stderr_example) 200 ++ ("...")
    ∧ (extract_main_error long_stderr_example 200).length = 203 := by
  refine ⟨(extract_main_error_total_bounded ("")).2.1 rfl, ?_, ?_⟩
  · exact (extract_main_error_total_bounded long_stderr_example).2.2.2.1 (by decide)
  · exact (extract_main_error_total_bounded long_stderr_example).2.2.2.2 (by decide)

/-- C5: whenever at least one line of stderr matches the exception
pattern, the summary applies the documented truncation to the first match
in line order when any line carries a chained-exception marker, and to
the last match otherwise; each collected match is indeed the match of the
line at its recorded index. -/
theorem extract_main_error_chained_selection (stderr : String) (p : Nat × String)
    (ps : List (Nat × String)) (h : exceptionPairs stderr = p :: ps) :
    (has_chained_exception stderr = true →
        extract_main_error stderr 200 = pyTruncate 200 p.2)
    ∧ (has_chained_exception stderr = false →
        extract_main_error stderr 200 = pyTruncate 200 ((ps.map Prod.snd).getLastD p.2))
    ∧ (∀ q ∈ exceptionPairs stderr,
        ∃ line, (pySplitlines (pyStrip stderr))[q.1]? = some line
          ∧ exception_pattern_match (pyStrip line) = some q.2) := by
  have hne : ¬ (pyStrip stderr).data.isEmpty = true := by
    intro hs
    rw [exceptionPairs_of_empty stderr hs] at h
    cases h
  have hext : extract_main_error stderr 200 = pyTruncate 200 (selected_error stderr) := by
    simp [extract_main_error, hne]
  have hsel : selected_error stderr
      = (if has_chained_exception stderr then p.2 else (ps.map Prod.snd).getLastD p.2) := by
    simp [selected_error, h]
  refine ⟨?_, ?_, ?_⟩
  · intro hchain; rw [hext, hsel]; simp [hchain]
  · intro hchain; rw [hext, hsel]; simp [hchain]
  · intro q hq
    rw [exceptionPairs] at hq
    rcases List.mem_filterMap.mp hq with ⟨x, hx, hgx⟩
    rcases Option.map_eq_some'.mp hgx with ⟨e, hfe, hqe⟩
    subst hqe
    refine ⟨x.2, ?_, hfe⟩
    simpa using List.mem_enum_iff_getElem?.mp hx

/-- Witness for C5: with the chained marker present, the summary is the
first match, the root-cause `ValueError`, not the later `RuntimeError`. -/
theorem extract_main_error_chained_selection_witness :
    extract_main_error chained_stderr_example 200 = "ValueError: root cause" := by
  have h := (extract_main_error_chained_selection chained_stderr_example
      (0, "ValueError: root cause") [(2, "RuntimeError: wrapper")] (by decide)).1 (by decide)
  rw [h]; decide
